import Mathlib

/-!
Shallow embedding of the todo-workshop backend (Express/Prisma): the
authentication middleware and todo router of src/backend/src/middleware/auth.js
together with the auth router (signup and login) and the Prisma-backed stores.

JavaScript strings that the handlers inspect character by character are
modelled as lists of characters (`Str`), so that every definition is
executable by kernel reduction.  External libraries are explicit parameters:
`verify` stands for jwt.verify under the process secret, `bcryptHash` and
`bcryptCompare` for bcrypt.hash and bcrypt.compare, and the database tables
are lists of rows.  Absent request-body fields (undefined) are `none`; the
JavaScript truthiness of the empty string is modelled by explicit empty
checks where the source relies on it.
-/

deriving instance DecidableEq for Except

namespace TodoApp

/-- A JavaScript string, as its list of characters. -/
abbrev Str := List Char

/-- An error response: res.status(status).json with an error message. -/
structure ErrResponse where
  status : Nat
  error : String
deriving Repr, DecidableEq

/-- A row of the users table (Prisma model User): id, unique email, stored
password hash. -/
structure User where
  id : Int
  email : Str
  password : Str
deriving Repr, DecidableEq

/-- A row of the todos table (Prisma model Todo); completed defaults to false
in the schema, createdAt is the creation timestamp. -/
structure Todo where
  id : Int
  userId : Int
  title : Str
  completed : Bool
  createdAt : Int
deriving Repr, DecidableEq

/-! ### JavaScript string primitives used by the handlers -/

/-- JavaScript split with a single-character separator: keeps empty pieces,
and the empty string splits to one empty piece. -/
def splitCh (sep : Char) : Str → List Str
  | [] => [[]]
  | c :: cs =>
    if c = sep then [] :: splitCh sep cs
    else
      match splitCh sep cs with
      | [] => [[c]]
      | p :: ps => (c :: p) :: ps

/-- JavaScript trim: remove whitespace from both ends. -/
def trimJS (s : Str) : Str :=
  ((s.dropWhile Char.isWhitespace).reverse.dropWhile Char.isWhitespace).reverse

/-- Numeric value of a decimal digit character. -/
def digitVal (c : Char) : Nat := c.toNat - ('0').toNat

/-- Decimal reading of a run of digit characters. -/
def decToNat (s : Str) : Nat :=
  s.foldl (fun n c => n * 10 + digitVal c) 0

/-- JavaScript hexadecimal digit test: 0-9, a-f, A-F. -/
def isHexDigitJS (c : Char) : Bool :=
  c.isDigit || (('a') ≤ c && c ≤ ('f')) || (('A') ≤ c && c ≤ ('F'))

/-- Numeric value of a hexadecimal digit character. -/
def hexDigitVal (c : Char) : Nat :=
  if c.isDigit then digitVal c
  else if ('a') ≤ c && c ≤ ('f') then c.toNat - ('a').toNat + 10
  else c.toNat - ('A').toNat + 10

/-- Hexadecimal reading of a run of hex-digit characters. -/
def hexToNat (s : Str) : Nat :=
  s.foldl (fun n c => n * 16 + hexDigitVal c) 0

/-- parseInt(s) as JavaScript evaluates it with no radix argument: trim
whitespace, take an optional sign, then either a 0x or 0X prefix followed by
hexadecimal digits, or a run of decimal digits; `none` models NaN (no digits
found). -/
def parseIntJS (s : Str) : Option Int :=
  let t := trimJS s
  let sign : Int := match t with
    | '-' :: _ => -1
    | _ => 1
  let rest : Str := match t with
    | '-' :: r => r
    | '+' :: r => r
    | r => r
  match rest with
  | '0' :: 'x' :: r =>
    let ds := r.takeWhile isHexDigitJS
    if ds.isEmpty then none else some (sign * (hexToNat ds : Int))
  | '0' :: 'X' :: r =>
    let ds := r.takeWhile isHexDigitJS
    if ds.isEmpty then none else some (sign * (hexToNat ds : Int))
  | _ =>
    let ds := rest.takeWhile Char.isDigit
    if ds.isEmpty then none else some (sign * (decToNat ds : Int))

/-! ### Auth Gate: authenticateToken (src/backend/src/middleware/auth.js) -/

/-- Token extraction of the middleware: authHeader and-chained with
splitting on single spaces and taking index 1, then the falsiness test
`if (not token)`.  Returns the token exactly when the header is present and
splitting it yields a nonempty second component: an absent index gives
undefined and both undefined and the empty string are falsy. -/
def extractToken : Option Str → Option Str
  | none => none
  | some h =>
    match (splitCh ' ' h)[1]? with
    | none => none
    | some t => if t = [] then none else some t

/-- The middleware authenticateToken.  `verify` abstracts jwt.verify with the
process secret: it returns the decoded userId, or `none` on any verification
failure (bad signature, expired, malformed).  A missing or unextractable
token gives 401 Access token required; a verification failure gives 403
Invalid or expired token; success passes the decoded id on as req.userId. -/
def authenticateToken (verify : Str → Option Int) (authHeader : Option Str) :
    Except ErrResponse Int :=
  match extractToken authHeader with
  | none => .error ⟨401, "Access token required"⟩
  | some token =>
    match verify token with
    | none => .error ⟨403, "Invalid or expired token"⟩
    | some userId => .ok userId

/-! ### Auth routes: POST /signup and POST /login -/

/-- A successful auth response body: message, token, and the user id and
email. -/
structure AuthOk where
  message : String
  token : Str
  userId : Int
  email : Str
deriving Repr, DecidableEq

/-- The signup route.  `bcryptHash` abstracts bcrypt.hash with cost 10 and
`issue` abstracts jwt.sign of the userId payload with 24h expiry; `newId` is
the id the database generates for the inserted row.  Returns the response
together with the user store after the request (unchanged on every error
path).  The source checks, in order: both fields present (JavaScript
truthiness, so the empty string also fails), password length at least 6, no
existing user with that email via findUnique; then inserts the new row and
issues a token. -/
def signup (bcryptHash : Str → Str) (issue : Int → Str)
    (store : List User) (email? password? : Option Str) (newId : Int) :
    Except ErrResponse AuthOk × List User :=
  match email?, password? with
  | some email, some password =>
    if email = [] || password = [] then
      (.error ⟨400, "Email and password are required"⟩, store)
    else if password.length < 6 then
      (.error ⟨400, "Password must be at least 6 characters"⟩, store)
    else
      match store.find? (fun u => u.email == email) with
      | some _ => (.error ⟨400, "User already exists"⟩, store)
      | none =>
        let user : User := ⟨newId, email, bcryptHash password⟩
        (.ok ⟨"User created successfully", issue user.id, user.id, user.email⟩,
          store ++ [user])
  | _, _ => (.error ⟨400, "Email and password are required"⟩, store)

/-- The login route.  `bcryptCompare` abstracts bcrypt.compare of the supplied
password against the stored hash.  Checks, in order: both fields present; a
user found by email, else 401 Invalid credentials; the password verifies
against the stored hash, else the same 401 Invalid credentials; then issues a
fresh token.  Login never mutates the store. -/
def login (bcryptCompare : Str → Str → Bool) (issue : Int → Str)
    (store : List User) (email? password? : Option Str) :
    Except ErrResponse AuthOk :=
  match email?, password? with
  | some email, some password =>
    if email = [] || password = [] then
      .error ⟨400, "Email and password are required"⟩
    else
      match store.find? (fun u => u.email == email) with
      | none => .error ⟨401, "Invalid credentials"⟩
      | some user =>
        if bcryptCompare password user.password then
          .ok ⟨"Login successful", issue user.id, user.id, user.email⟩
        else
          .error ⟨401, "Invalid credentials"⟩
  | _, _ => .error ⟨400, "Email and password are required"⟩

/-! ### Todo routes (all behind authenticateToken; uid is req.userId) -/

/-- Ordering used by GET /: orderBy createdAt descending — newest first. -/
def newerFirst (a b : Todo) : Prop := b.createdAt ≤ a.createdAt

instance : DecidableRel newerFirst := fun a b =>
  inferInstanceAs (Decidable (b.createdAt ≤ a.createdAt))

instance : IsTotal Todo newerFirst :=
  ⟨fun a b => le_total b.createdAt a.createdAt⟩

instance : IsTrans Todo newerFirst :=
  ⟨fun _ _ _ h1 h2 => le_trans h2 h1⟩

/-- The list route GET /: findMany of the rows whose userId is the principal,
ordered by createdAt descending. -/
def listTodos (store : List Todo) (uid : Int) : List Todo :=
  List.insertionSort newerFirst (store.filter (fun t => t.userId == uid))

/-- The read-one route GET /:id: parse the id (400 on NaN), look the row up by
id (404 if absent), then check ownership (403 on mismatch), then return the
row.  A GET performs no writes, so no store is returned. -/
def getTodoById (store : List Todo) (uid : Int) (idParam : Str) :
    Except ErrResponse Todo :=
  match parseIntJS idParam with
  | none => .error ⟨400, "Invalid todo ID"⟩
  | some todoId =>
    match store.find? (fun t => t.id == todoId) with
    | none => .error ⟨404, "Todo not found"⟩
    | some todo =>
      if todo.userId ≠ uid then .error ⟨403, "Access denied"⟩
      else .ok todo

/-- The create route POST /: requires a title that is present and does not
trim to the empty string, else 400 Title is required.  On success inserts a
row with the trimmed title, owner req.userId, and completed false (the schema
default); `newId` and `now` are the database-generated id and creation
timestamp.  Returns the response and the store after the request. -/
def createTodo (store : List Todo) (uid : Int) (title? : Option Str)
    (newId : Int) (now : Int) : Except ErrResponse Todo × List Todo :=
  match title? with
  | none => (.error ⟨400, "Title is required"⟩, store)
  | some title =>
    if title = [] || trimJS title = [] then
      (.error ⟨400, "Title is required"⟩, store)
    else
      let todo : Todo := ⟨newId, uid, trimJS title, false, now⟩
      (.ok todo, store ++ [todo])

/-- The body of a PUT /:id request: title and completed, each field optional
(undefined is `none`). -/
structure UpdateBody where
  title : Option Str
  completed : Option Bool
deriving Repr, DecidableEq

/-- The updateData object of PUT /:id: only the fields present in the body
are written — title (trimmed) when supplied, completed when supplied.  The
fields id, userId and createdAt are never part of updateData. -/
def applyUpdate (body : UpdateBody) (t : Todo) : Todo :=
  let t1 := match body.title with
    | some s => { t with title := trimJS s }
    | none => t
  match body.completed with
  | some c => { t1 with completed := c }
  | none => t1

/-- The update route PUT /:id: parse the id (400 on NaN), find the row (404
if absent), check ownership (403 on mismatch), then update the row with that
id by updateData and return it. -/
def updateTodo (store : List Todo) (uid : Int) (idParam : Str)
    (body : UpdateBody) : Except ErrResponse Todo × List Todo :=
  match parseIntJS idParam with
  | none => (.error ⟨400, "Invalid todo ID"⟩, store)
  | some todoId =>
    match store.find? (fun t => t.id == todoId) with
    | none => (.error ⟨404, "Todo not found"⟩, store)
    | some existingTodo =>
      if existingTodo.userId ≠ uid then (.error ⟨403, "Access denied"⟩, store)
      else
        (.ok (applyUpdate body existingTodo),
          store.map (fun t => if t.id == todoId then applyUpdate body t else t))

/-- The success body of DELETE /:id. -/
structure DeleteOk where
  message : String
deriving Repr, DecidableEq

/-- The delete route DELETE /:id: parse the id (400 on NaN), find the row
(404 if absent), check ownership (403 on mismatch), then remove the row with
that id. -/
def deleteTodo (store : List Todo) (uid : Int) (idParam : Str) :
    Except ErrResponse DeleteOk × List Todo :=
  match parseIntJS idParam with
  | none => (.error ⟨400, "Invalid todo ID"⟩, store)
  | some todoId =>
    match store.find? (fun t => t.id == todoId) with
    | none => (.error ⟨404, "Todo not found"⟩, store)
    | some existingTodo =>
      if existingTodo.userId ≠ uid then (.error ⟨403, "Access denied"⟩, store)
      else
        (.ok ⟨"Todo deleted successfully"⟩,
          store.filter (fun t => t.id != todoId))

/-! ### Claim theorems -/

/-- C1: for every single-resource operation (read-one, update, delete) by an
authenticated principal, a nonexistent id yields 404 Todo not found whoever
the principal is, and an existing row owned by someone else yields 403 Access
denied; since the 404 branch holds for every principal, a nonexistent id never
yields 403. -/
theorem notFound_checked_before_forbidden
    (store : List Todo) (uid : Int) (idParam : Str) (i : Int) (body : UpdateBody)
    (hp : parseIntJS idParam = some i) :
    (store.find? (fun t => t.id == i) = none →
      getTodoById store uid idParam = .error ⟨404, "Todo not found"⟩ ∧
      updateTodo store uid idParam body = (.error ⟨404, "Todo not found"⟩, store) ∧
      deleteTodo store uid idParam = (.error ⟨404, "Todo not found"⟩, store)) ∧
    (∀ t, store.find? (fun t => t.id == i) = some t → t.userId ≠ uid →
      getTodoById store uid idParam = .error ⟨403, "Access denied"⟩ ∧
      updateTodo store uid idParam body = (.error ⟨403, "Access denied"⟩, store) ∧
      deleteTodo store uid idParam = (.error ⟨403, "Access denied"⟩, store)) := by
  constructor
  · intro hf
    refine ⟨?_, ?_, ?_⟩ <;> simp [getTodoById, updateTodo, deleteTodo, hp, hf]
  · intro t hf ht
    refine ⟨?_, ?_, ?_⟩ <;> simp [getTodoById, updateTodo, deleteTodo, hp, hf, ht]

/-- C1 witness: in a store holding only todo 1 owned by user 10, principal 20
gets 404 for id 2 on all three operations and 403 for id 1 on all three. -/
theorem notFound_checked_before_forbidden_witness :
    (getTodoById [⟨1, 10, ['a'], false, 0⟩] 20 ['2'] = .error ⟨404, "Todo not found"⟩ ∧
     updateTodo [⟨1, 10, ['a'], false, 0⟩] 20 ['2'] ⟨none, some true⟩
       = (.error ⟨404, "Todo not found"⟩, [⟨1, 10, ['a'], false, 0⟩]) ∧
     deleteTodo [⟨1, 10, ['a'], false, 0⟩] 20 ['2']
       = (.error ⟨404, "Todo not found"⟩, [⟨1, 10, ['a'], false, 0⟩])) ∧
    (getTodoById [⟨1, 10, ['a'], false, 0⟩] 20 ['1'] = .error ⟨403, "Access denied"⟩ ∧
     updateTodo [⟨1, 10, ['a'], false, 0⟩] 20 ['1'] ⟨none, some true⟩
       = (.error ⟨403, "Access denied"⟩, [⟨1, 10, ['a'], false, 0⟩]) ∧
     deleteTodo [⟨1, 10, ['a'], false, 0⟩] 20 ['1']
       = (.error ⟨403, "Access denied"⟩, [⟨1, 10, ['a'], false, 0⟩])) :=
  ⟨(notFound_checked_before_forbidden [⟨1, 10, ['a'], false, 0⟩] 20 ['2'] 2
      ⟨none, some true⟩ (by decide)).1 (by decide),
   (notFound_checked_before_forbidden [⟨1, 10, ['a'], false, 0⟩] 20 ['1'] 1
      ⟨none, some true⟩ (by decide)).2 ⟨1, 10, ['a'], false, 0⟩ (by decide) (by decide)⟩

/-- C2 counterexample: under a verifier that rejects every token (as jwt
verification rejects the token garbage under any secret), a request with no
Authorization header is rejected 401 Access token required while the header
Bearer garbage is rejected 403 Invalid or expired token — different status
codes and different messages, so the two cases are distinguished, contrary to
the claim that both carry the same error code. -/
theorem missing_vs_garbage_header_distinguished :
    authenticateToken (fun _ => none) none = .error ⟨401, "Access token required"⟩ ∧
    authenticateToken (fun _ => none) (some "Bearer garbage".toList)
      = .error ⟨403, "Invalid or expired token"⟩ ∧
    (⟨401, "Access token required"⟩ : ErrResponse) ≠ ⟨403, "Invalid or expired token"⟩ := by
  decide

/-- C2 (amended): a request with no Authorization header fails 401 Access
token required, while a request whose header yields a token that fails
verification fails 403 Invalid or expired token; the two failure causes are
distinguished by status code and message. -/
theorem auth_gate_distinguishes_missing_from_invalid
    (verify : Str → Option Int) (h tok : Str)
    (hx : extractToken (some h) = some tok) (hv : verify tok = none) :
    authenticateToken verify none = .error ⟨401, "Access token required"⟩ ∧
    authenticateToken verify (some h) = .error ⟨403, "Invalid or expired token"⟩ ∧
    (⟨401, "Access token required"⟩ : ErrResponse) ≠ ⟨403, "Invalid or expired token"⟩ := by
  refine ⟨rfl, ?_, by decide⟩
  simp [authenticateToken, hx, hv]

/-- C2 (amended) witness: concrete instance with the header Bearer garbage
and a verifier rejecting every token. -/
theorem auth_gate_distinguishes_missing_from_invalid_witness :
    authenticateToken (fun _ => none) none = .error ⟨401, "Access token required"⟩ ∧
    authenticateToken (fun _ => none) (some "Bearer garbage".toList)
      = .error ⟨403, "Invalid or expired token"⟩ ∧
    (⟨401, "Access token required"⟩ : ErrResponse) ≠ ⟨403, "Invalid or expired token"⟩ :=
  auth_gate_distinguishes_missing_from_invalid (fun _ => none)
    "Bearer garbage".toList "garbage".toList (by decide) rfl

/-- C3: a login with an identifier that is found but whose password fails
bcrypt comparison, and a login with an identifier that is not found, both
return the identical response 401 Invalid credentials — same code, same
message. -/
theorem login_error_indistinguishable
    (bcryptCompare : Str → Str → Bool) (issue : Int → Str) (store : List User)
    (e1 p1 e2 p2 : Str) (u : User)
    (he1 : e1 ≠ []) (hp1 : p1 ≠ []) (he2 : e2 ≠ []) (hp2 : p2 ≠ [])
    (hfind1 : store.find? (fun v => v.email == e1) = some u)
    (hwrong : bcryptCompare p1 u.password = false)
    (hfind2 : store.find? (fun v => v.email == e2) = none) :
    login bcryptCompare issue store (some e1) (some p1)
      = .error ⟨401, "Invalid credentials"⟩ ∧
    login bcryptCompare issue store (some e2) (some p2)
      = .error ⟨401, "Invalid credentials"⟩ := by
  constructor
  · simp [login, he1, hp1, hfind1, hwrong]
  · simp [login, he2, hp2, hfind2]

/-- C3 witness: one stored user with email a, a comparer that rejects the
attempt, a wrong-password login for a and a login for the unknown email b. -/
theorem login_error_indistinguishable_witness :
    login (fun _ _ => false) (fun _ => []) [⟨1, ['a'], ['h']⟩] (some ['a']) (some ['x'])
      = .error ⟨401, "Invalid credentials"⟩ ∧
    login (fun _ _ => false) (fun _ => []) [⟨1, ['a'], ['h']⟩] (some ['b']) (some ['x'])
      = .error ⟨401, "Invalid credentials"⟩ :=
  login_error_indistinguishable (fun _ _ => false) (fun _ => []) [⟨1, ['a'], ['h']⟩]
    ['a'] ['x'] ['b'] ['x'] ⟨1, ['a'], ['h']⟩
    (by decide) (by decide) (by decide) (by decide) (by decide) rfl (by decide)

/-- C4 counterexample: a signup request whose email already exists but whose
password is only three characters fails with the password-length message, not
with User already exists — field validation runs before the duplicate check,
so not every signup with an existing identifier fails AlreadyExists. -/
theorem signup_existing_email_short_password :
    (signup (fun s => s) (fun _ => []) [⟨1, ['a'], ['h']⟩] (some ['a']) (some ['x', 'y', 'z']) 2).1
      = .error ⟨400, "Password must be at least 6 characters"⟩ ∧
    (⟨400, "Password must be at least 6 characters"⟩ : ErrResponse)
      ≠ ⟨400, "User already exists"⟩ := by
  decide

/-- C4 (amended): a signup request that passes field validation (both fields
present and nonempty, password at least 6 characters) and whose email already
exists fails with 400 User already exists and returns the store unchanged —
in particular no row is created and the stored hash of the existing account
is not altered. -/
theorem signup_existing_email_rejected
    (bcryptHash : Str → Str) (issue : Int → Str) (store : List User)
    (email password : Str) (newId : Int) (u : User)
    (he : email ≠ []) (hpw : 6 ≤ password.length)
    (hfind : store.find? (fun v => v.email == email) = some u) :
    signup bcryptHash issue store (some email) (some password) newId
      = (.error ⟨400, "User already exists"⟩, store) := by
  have hp : password ≠ [] := by
    intro h
    rw [h] at hpw
    simp at hpw
  simp [signup, he, hp, Nat.not_lt.mpr hpw, hfind]

/-- C4 (amended) witness: store holding the account with email a and hash h;
a valid signup for the same email fails User already exists and leaves the
store, including the stored hash, unchanged. -/
theorem signup_existing_email_rejected_witness :
    signup (fun s => s) (fun _ => []) [⟨1, ['a'], ['h']⟩]
        (some ['a']) (some ['p', 'w', 'p', 'w', 'p', 'w']) 2
      = (.error ⟨400, "User already exists"⟩, [⟨1, ['a'], ['h']⟩]) :=
  signup_existing_email_rejected (fun s => s) (fun _ => []) [⟨1, ['a'], ['h']⟩]
    ['a'] ['p', 'w', 'p', 'w', 'p', 'w'] 2 ⟨1, ['a'], ['h']⟩
    (by decide) (by decide) (by decide)

/-- C5: an authenticated create request whose title is absent or trims to
empty fails 400 Title is required and leaves the store unchanged; otherwise
it creates exactly one new row whose owner is the principal, whose title is
the trimmed input, and whose completed flag is false. -/
theorem createTodo_spec (store : List Todo) (uid : Int) (title? : Option Str)
    (newId : Int) (now : Int) :
    ((title? = none ∨ ∃ s, title? = some s ∧ trimJS s = []) →
      createTodo store uid title? newId now
        = (.error ⟨400, "Title is required"⟩, store)) ∧
    (∀ s, title? = some s → trimJS s ≠ [] →
      createTodo store uid title? newId now
        = (.ok ⟨newId, uid, trimJS s, false, now⟩,
           store ++ [⟨newId, uid, trimJS s, false, now⟩])) := by
  constructor
  · rintro (h | ⟨s, hs, ht⟩)
    · subst h
      rfl
    · subst hs
      simp [createTodo, ht]
  · intro s hs ht
    subst hs
    have hne : s ≠ [] := by
      intro h
      apply ht
      rw [h]
      rfl
    simp [createTodo, hne, ht]

/-- C5 witness: creating with a whitespace-only title fails and leaves the
store unchanged; creating with padded text succeeds with the trimmed title,
owner 10, and completed false. -/
theorem createTodo_spec_witness :
    createTodo [] 10 (some [' ', ' ']) 1 0
      = (.error ⟨400, "Title is required"⟩, []) ∧
    createTodo [] 10 (some [' ', 'b', 'u', 'y', ' ']) 1 0
      = (.ok ⟨1, 10, ['b', 'u', 'y'], false, 0⟩, [⟨1, 10, ['b', 'u', 'y'], false, 0⟩]) := by
  constructor
  · exact (createTodo_spec [] 10 (some [' ', ' ']) 1 0).1
      (Or.inr ⟨[' ', ' '], rfl, by decide⟩)
  · have := (createTodo_spec [] 10 (some [' ', 'b', 'u', 'y', ' ']) 1 0).2
      [' ', 'b', 'u', 'y', ' '] rfl (by decide)
    simpa using this

/-- C6: an update by the owner replaces the row with its applyUpdate image
and returns it; applyUpdate never changes id or userId, leaves the title
unchanged when the body has no title field, and leaves the completed flag
unchanged when the body has no completed field. -/
theorem update_changes_only_given_fields
    (store : List Todo) (uid : Int) (idParam : Str) (i : Int) (t : Todo)
    (body : UpdateBody)
    (hp : parseIntJS idParam = some i)
    (hfind : store.find? (fun x => x.id == i) = some t)
    (hown : t.userId = uid) :
    updateTodo store uid idParam body
      = (.ok (applyUpdate body t),
         store.map (fun x => if x.id == i then applyUpdate body x else x)) ∧
    (∀ x, (applyUpdate body x).id = x.id ∧ (applyUpdate body x).userId = x.userId) ∧
    (body.title = none → ∀ x, (applyUpdate body x).title = x.title) ∧
    (body.completed = none → ∀ x, (applyUpdate body x).completed = x.completed) := by
  refine ⟨?_, ?_, ?_, ?_⟩
  · simp [updateTodo, hp, hfind, hown]
  · intro x
    cases hbt : body.title <;> cases hbc : body.completed <;>
      simp [applyUpdate, hbt, hbc]
  · intro hbt x
    cases hbc : body.completed <;> simp [applyUpdate, hbt, hbc]
  · intro hbc x
    cases hbt : body.title <;> simp [applyUpdate, hbt, hbc]

/-- C6 witness: updating todo 1 (owned by 10) with only a completed field
keeps the stored title, and the returned and stored row keep id 1 and owner
10. -/
theorem update_changes_only_given_fields_witness :
    updateTodo [⟨1, 10, ['a'], false, 0⟩] 10 ['1'] ⟨none, some true⟩
      = (.ok ⟨1, 10, ['a'], true, 0⟩, [⟨1, 10, ['a'], true, 0⟩]) ∧
    (applyUpdate ⟨none, some true⟩ ⟨1, 10, ['a'], false, 0⟩).title = ['a'] := by
  have h := update_changes_only_given_fields [⟨1, 10, ['a'], false, 0⟩] 10 ['1'] 1
    ⟨1, 10, ['a'], false, 0⟩ ⟨none, some true⟩ (by decide) (by decide) rfl
  exact ⟨by simpa using h.1, h.2.2.1 rfl ⟨1, 10, ['a'], false, 0⟩⟩

/-- C7: the list route returns a permutation of exactly the rows owned by the
principal — a row is in the result iff it is a row of the store owned by the
principal — ordered newest-first by creation timestamp (each row has a
creation timestamp at least that of every later row). -/
theorem listTodos_scoped_newest_first (store : List Todo) (uid : Int) :
    List.Perm (listTodos store uid) (store.filter (fun t => t.userId == uid)) ∧
    (∀ t, t ∈ listTodos store uid ↔ t ∈ store ∧ t.userId = uid) ∧
    List.Pairwise (fun a b => b.createdAt ≤ a.createdAt) (listTodos store uid) := by
  refine ⟨List.perm_insertionSort newerFirst _, ?_, ?_⟩
  · intro t
    unfold listTodos
    rw [List.Perm.mem_iff (List.perm_insertionSort newerFirst _)]
    simp [List.mem_filter]
  · have h := List.sorted_insertionSort newerFirst
      (store.filter (fun t => t.userId == uid))
    simpa [List.Sorted, newerFirst] using h

/-- C7 witness: in a store with two rows of user 10 and one of user 20, the
row owned by user 20 does not appear in the list for user 10. -/
theorem listTodos_scoped_newest_first_witness :
    (⟨2, 20, ['b'], false, 5⟩ : Todo) ∉
      listTodos [⟨1, 10, ['a'], false, 0⟩, ⟨2, 20, ['b'], false, 5⟩,
        ⟨3, 10, ['c'], true, 7⟩] 10 := by
  intro hmem
  have h := ((listTodos_scoped_newest_first
      [⟨1, 10, ['a'], false, 0⟩, ⟨2, 20, ['b'], false, 5⟩, ⟨3, 10, ['c'], true, 7⟩]
      10).2.1 ⟨2, 20, ['b'], false, 5⟩).mp hmem
  exact absurd h.2 (by decide)

/-- C8 counterexample: the header A B C is not in scheme-token two-token
format, yet the gate does not fail 401: it passes the second space-separated
component B to the verifier (here one accepting B as user 7) and the request
proceeds as user 7.  The scheme is never inspected. -/
theorem three_component_header_passes_gate :
    authenticateToken (fun tok => if tok = ['B'] then some 7 else none)
      (some "A B C".toList) = .ok 7 := by
  decide

/-- C8 (amended): the gate fails 401 Access token required exactly when the
token cannot be extracted, namely when the header is absent or splitting it
on single spaces yields no nonempty second component; whenever the split has
a nonempty second component, that component — regardless of the scheme text
or of any further components — is handed to token verification, which decides
the outcome. -/
theorem auth_gate_header_parsing (verify : Str → Option Int) (h? : Option Str) :
    (authenticateToken verify h? = .error ⟨401, "Access token required"⟩ ↔
      extractToken h? = none) ∧
    (extractToken h? = none ↔
      (h? = none ∨ ∃ h, h? = some h ∧ ((splitCh ' ' h)[1]?.getD []) = [])) ∧
    (∀ h tok, h? = some h → (splitCh ' ' h)[1]? = some tok → tok ≠ [] →
      authenticateToken verify h?
        = match verify tok with
          | none => .error ⟨403, "Invalid or expired token"⟩
          | some userId => .ok userId) := by
  refine ⟨?_, ?_, ?_⟩
  · cases hx : extractToken h? with
    | none => simp [authenticateToken, hx]
    | some tok =>
      simp only [authenticateToken, hx]
      cases verify tok <;> simp
  · cases h? with
    | none => simp [extractToken]
    | some h =>
      simp only [extractToken]
      cases hs : (splitCh ' ' h)[1]? with
      | none => simp [hs]
      | some t =>
        by_cases ht : t = [] <;> simp [hs, ht]
  · intro h tok hh hs ht
    subst hh
    simp [authenticateToken, extractToken, hs, ht]

/-- C8 (amended) witness: with a verifier accepting everything as user 5, the
three-component header Basic x y passes its second component x to
verification and proceeds, while the single-component header Bearer fails
401. -/
theorem auth_gate_header_parsing_witness :
    authenticateToken (fun _ => some 5) (some "Basic x y".toList) = .ok 5 ∧
    authenticateToken (fun _ => some 5) (some "Bearer".toList)
      = .error ⟨401, "Access token required"⟩ := by
  constructor
  · have h := (auth_gate_header_parsing (fun _ => some 5) (some "Basic x y".toList)).2.2
      "Basic x y".toList ['x'] rfl (by decide) (by decide)
    simpa using h
  · exact ((auth_gate_header_parsing (fun _ => some 5) (some "Bearer".toList)).1).mpr
      (by decide)

/-- C9: when the id path parameter does not parse to an integer (parseInt
yields NaN), read-one, update and delete all fail 400 Invalid todo ID, for
every store, every principal and every body, and the store after the request
equals the store before it. -/
theorem invalid_id_rejected_before_lookup
    (store : List Todo) (uid : Int) (idParam : Str) (body : UpdateBody)
    (hp : parseIntJS idParam = none) :
    getTodoById store uid idParam = .error ⟨400, "Invalid todo ID"⟩ ∧
    updateTodo store uid idParam body = (.error ⟨400, "Invalid todo ID"⟩, store) ∧
    deleteTodo store uid idParam = (.error ⟨400, "Invalid todo ID"⟩, store) := by
  refine ⟨?_, ?_, ?_⟩ <;> simp [getTodoById, updateTodo, deleteTodo, hp]

/-- C9 witness: the non-numeric id abc is rejected 400 by all three
operations and the store is unchanged. -/
theorem invalid_id_rejected_before_lookup_witness :
    getTodoById [⟨1, 10, ['a'], false, 0⟩] 10 "abc".toList
      = .error ⟨400, "Invalid todo ID"⟩ ∧
    updateTodo [⟨1, 10, ['a'], false, 0⟩] 10 "abc".toList ⟨none, some true⟩
      = (.error ⟨400, "Invalid todo ID"⟩, [⟨1, 10, ['a'], false, 0⟩]) ∧
    deleteTodo [⟨1, 10, ['a'], false, 0⟩] 10 "abc".toList
      = (.error ⟨400, "Invalid todo ID"⟩, [⟨1, 10, ['a'], false, 0⟩]) :=
  invalid_id_rejected_before_lookup [⟨1, 10, ['a'], false, 0⟩] 10 "abc".toList
    ⟨none, some true⟩ (by decide)

/-- C10: update, unlike create, accepts a title that is empty or trims to
empty: for a row the principal owns, an update whose body carries such a
title succeeds and stores the empty title, while create with the same title
fails 400 Title is required. -/
theorem update_allows_empty_title
    (store : List Todo) (uid : Int) (idParam : Str) (i : Int) (t : Todo)
    (s : Str) (c? : Option Bool) (newId now : Int)
    (hp : parseIntJS idParam = some i)
    (hfind : store.find? (fun x => x.id == i) = some t)
    (hown : t.userId = uid)
    (hs : trimJS s = []) :
    (updateTodo store uid idParam ⟨some s, c?⟩).1
      = .ok (applyUpdate ⟨some s, c?⟩ t) ∧
    (applyUpdate ⟨some s, c?⟩ t).title = [] ∧
    (createTodo store uid (some s) newId now).1
      = .error ⟨400, "Title is required"⟩ := by
  refine ⟨?_, ?_, ?_⟩
  · simp [updateTodo, hp, hfind, hown]
  · cases c? <;> simp [applyUpdate, hs]
  · simp [createTodo, hs]

/-- C10 witness: updating todo 1 (owned by 10) with a whitespace-only title
succeeds and stores the empty title; create with the same title fails 400. -/
theorem update_allows_empty_title_witness :
    (updateTodo [⟨1, 10, ['a'], false, 0⟩] 10 ['1'] ⟨some [' ', ' '], none⟩).1
      = .ok ⟨1, 10, [], false, 0⟩ ∧
    (createTodo [⟨1, 10, ['a'], false, 0⟩] 10 (some [' ', ' ']) 2 5).1
      = .error ⟨400, "Title is required"⟩ := by
  have h := update_allows_empty_title [⟨1, 10, ['a'], false, 0⟩] 10 ['1'] 1
    ⟨1, 10, ['a'], false, 0⟩ [' ', ' '] none 2 5 (by decide) (by decide) rfl (by decide)
  exact ⟨by simpa using h.1, h.2.2⟩

end TodoApp
